import Mathlib

/-!
Shallow embedding of the multi-agent RAG workflow core
(`src/graph/state.py`, `src/graph/workflow.py`, `src/agents/*.py`,
`src/agents/tools/pdf_retrieval.py`).

Modelling conventions:
* LangChain messages are modelled by `Msg`: a role (`human` for
  `HumanMessage`, `ai` for `AIMessage`, `tool` for tool messages), a text
  content, and the list of tool-call names carried by the message
  (`AIMessage.tool_calls`; empty for non-AI messages).
* The free-form `state["context"]` dict is flattened into the fields
  `context_observations`, `context_tool_history`, `context_final_output`
  (`none` models an absent `"final_output"` key; Python reads it with
  `.get("final_output", "")`).
* Calls to the Completion capability (`llm_client.generate`, the ReAct
  tool loop `self.agent.invoke`) are oracles passed as explicit arguments:
  `some text` models a successful call returning `text`, `none` models the
  call raising.  The Langfuse prompt-fetch indirection only selects how the
  prompt is built; either way the agent ends up with a generated string or
  an exception caught by the agent's outer `except`, which is exactly what
  the oracle encodes.
* Python exceptions that can escape a function are modelled with
  `Except Unit`; a function that catches every exception internally is
  total.
* Similarity scores and the confidence score are Python floats holding the
  literal constants 0.0 / 0.6 / 0.8 / 0.95 (no arithmetic is performed on
  them); they are modelled as exact rationals.
-/

/-- Message role: `human` models `HumanMessage`, `ai` models `AIMessage`
(`msg.type == 'ai'`), `tool` models tool-result messages. -/
inductive Role where
  | human
  | ai
  | tool
  | system
deriving DecidableEq, Repr

/-- A LangChain message: role, text content, and the names of the tool
calls attached to it (`msg.tool_calls`, present and possibly non-empty only
on AI messages). -/
structure Msg where
  role : Role
  content : String
  tool_calls : List String := []
deriving DecidableEq, Repr

/-- Shallow embedding of `AgentState` (src/graph/state.py): the single
mutable record threaded through every graph step.  The `context` dict is
flattened into the three `context_*` fields actually read or written by
the agents. -/
structure AgentState where
  messages : List Msg
  session_id : String
  next_agent : String
  last_agent : Option String
  iteration : Nat
  context_observations : List String
  context_tool_history : List String
  context_final_output : Option String
  clarification_needed : Bool
  missing_context : List String
  clarification_count : Nat
  final_answer : Option String
  confidence_score : Option ℚ
deriving DecidableEq, Repr

/-- Embedding of `create_initial_state(messages, session_id)`
(src/graph/state.py, lines 62-92). -/
def create_initial_state (messages : List Msg) (session_id : String) : AgentState :=
  { messages := messages
    session_id := session_id
    next_agent := "orchestrator"
    last_agent := none
    iteration := 0
    context_observations := []
    context_tool_history := []
    context_final_output := none
    clarification_needed := false
    missing_context := []
    clarification_count := 0
    final_answer := none
    confidence_score := none }

/-- Per-agent configuration dict (`agent_config`), restricted to the keys
read by the agents' control flow: `max_history` (default 10) and
`max_clarifications` (default 2, orchestrator only). -/
structure AgentConfig where
  max_history : Nat := 10
  max_clarifications : Nat := 2
deriving DecidableEq, Repr

/-- Embedding of the history-truncation idiom shared by all agents:
`state["messages"][-max_history:] if len(state["messages"]) > max_history
else state["messages"]`.  Note the Python quirk: a slice `[-0:]` is the
whole list, so `max_history = 0` does not truncate. -/
def lastWindow (max_history : Nat) (msgs : List Msg) : List Msg :=
  if max_history < msgs.length then
    if max_history = 0 then msgs else msgs.drop (msgs.length - max_history)
  else msgs

/-- Test used by isinstance checks on an optional list element: the element
exists and has the given role. -/
def msgRoleIs (m : Option Msg) (r : Role) : Bool :=
  match m with
  | some msg => msg.role == r
  | none => false

namespace MasterOrchestrator

/-- Layer-2 guard condition of `MasterOrchestrator.execute`
(src/agents/orchestrator.py, lines 83-94): at least two messages in the
truncated window, the second-to-last is an `AIMessage`, the last is a
`HumanMessage`, and `last_agent == "clarification"`. -/
def layer2Fires (messages : List Msg) (last_agent : Option String) : Bool :=
  decide (2 ≤ messages.length) &&
  msgRoleIs messages.dropLast.getLast? .ai &&
  msgRoleIs messages.getLast? .human &&
  (last_agent == some "clarification")

/-- Case-insensitive containment test `"CLARIFICATION" in decision.upper()`
(src/agents/orchestrator.py, line 185): `decision.upper()` is modelled by
uppercasing the decision character-wise, and `in` by list-infix
containment. -/
def mentionsClarification (decision : String) : Bool :=
  decide ("CLARIFICATION".toList <:+: decision.toList.map Char.toUpper)

/-- Embedding of `MasterOrchestrator.execute` (src/agents/orchestrator.py,
lines 42-206).  `decision` is the Completion oracle for layer 3 (`none`
models `llm_client.generate` raising, in which case the outer `except`
defaults to research without touching `clarification_count`).  The
`.error ()` outcome models the uncaught `IndexError` of
`query = messages[-1].content` (line 110, before the `try`) when the
truncated window is empty. -/
def execute (cfg : AgentConfig) (decision : Option String) (s : AgentState) :
    Except Unit AgentState :=
  let messages := lastWindow cfg.max_history s.messages
  if cfg.max_clarifications ≤ s.clarification_count then
    -- LAYER 1: counter limit (lines 67-76)
    .ok { s with next_agent := "research"
                 clarification_needed := false
                 clarification_count := 0
                 iteration := s.iteration + 1 }
  else if layer2Fires messages s.last_agent then
    -- LAYER 2: clarification follow-up pattern (lines 83-104)
    .ok { s with next_agent := "research"
                 clarification_needed := false
                 clarification_count := 0
                 iteration := s.iteration + 1 }
  else if messages.isEmpty then
    -- line 110: `messages[-1]` raises IndexError outside any try/except
    .error ()
  else
    -- LAYER 3: LLM decision (lines 110-206)
    match decision with
    | some d =>
      if mentionsClarification d then
        .ok { s with next_agent := "clarification"
                     clarification_needed := true
                     missing_context := ["Query is vague or ambiguous"]
                     clarification_count := s.clarification_count + 1
                     iteration := s.iteration + 1 }
      else
        .ok { s with next_agent := "research"
                     clarification_needed := false
                     clarification_count := 0
                     iteration := s.iteration + 1 }
    | none =>
      -- lines 200-206: any exception defaults to research;
      -- `clarification_count` is left unchanged here
      .ok { s with next_agent := "research"
                   clarification_needed := false
                   iteration := s.iteration + 1 }

end MasterOrchestrator

namespace ClarificationAgent

/-- Fallback clarifying question emitted when Completion fails
(src/agents/clarification.py, line 120). -/
def fallbackText : String :=
  "Could you please provide more details about your question?"

/-- Embedding of `ClarificationAgent.execute` (src/agents/clarification.py,
lines 37-125).  `clarification` is the Completion oracle (`none` models
`llm_client.generate` raising; the outer `except` then appends
`fallbackText`).  The `.error ()` outcome models the uncaught `IndexError`
of `query = messages[-1].content` (line 51, before the `try`) when the
truncated window is empty. -/
def execute (cfg : AgentConfig) (clarification : Option String) (s : AgentState) :
    Except Unit AgentState :=
  let messages := lastWindow cfg.max_history s.messages
  if messages.isEmpty then
    .error ()
  else
    match clarification with
    | some text =>
      .ok { s with messages := s.messages ++ [{ role := .ai, content := text }]
                   final_answer := some text
                   next_agent := "END"
                   last_agent := some "clarification" }
    | none =>
      .ok { s with messages := s.messages ++ [{ role := .ai, content := fallbackText }]
                   final_answer := some fallbackText
                   next_agent := "END"
                   last_agent := some "clarification" }

end ClarificationAgent

namespace AnswerSynthesisAgent

/-- Embedding of `AnswerSynthesisAgent._calculate_confidence`
(src/agents/synthesis.py, lines 143-160). -/
def calculate_confidence (observations : List String) : ℚ :=
  let num_observations := observations.length
  if num_observations = 0 then 0
  else if num_observations = 1 then 6/10
  else if num_observations = 2 then 8/10
  else 95/100

/-- Generic error string used when Completion fails and
`context.final_output` is falsy (src/agents/synthesis.py, line 136). -/
def genericError : String :=
  "I encountered an error while processing your request."

/-- Embedding of `AnswerSynthesisAgent.execute` (src/agents/synthesis.py,
lines 37-141).  `answer` is the Completion oracle (`none` models
`llm_client.generate` raising).  Everything before the `try` (window
truncation, query extraction, reading `context`) is total, so the function
is total; the history window and query feed only the prompt handed to the
oracle and are not re-modelled here.  Note the failure branch (lines
133-141) does not set `last_agent`. -/
def execute (_cfg : AgentConfig) (answer : Option String) (s : AgentState) :
    AgentState :=
  let observations := s.context_observations
  let final_output := (s.context_final_output).getD ""
  match answer with
  | some text =>
    let confidence := calculate_confidence observations
    { s with messages := s.messages ++ [{ role := .ai, content := text }]
             final_answer := some text
             confidence_score := some confidence
             next_agent := "END"
             last_agent := some "synthesis" }
  | none =>
    let fallback := if final_output = "" then genericError else final_output
    { s with messages := s.messages ++ [{ role := .ai, content := fallback }]
             final_answer := some fallback
             confidence_score := some 0
             next_agent := "END" }

end AnswerSynthesisAgent

namespace ResearchSupervisor

/-- Tool-call scan of `ResearchSupervisor.execute` (src/agents/research.py,
lines 107-121): walk every message of the loop result, and for each tool
call whose name is not yet in `tool_history`, record the name and append a
`"Used tool: ..."` observation.  Returns `(observations, tool_history)`. -/
def scanToolCalls (msgs : List Msg) : List String × List String :=
  msgs.foldl
    (fun acc msg =>
      if msg.tool_calls.isEmpty then acc
      else
        msg.tool_calls.foldl
          (fun acc2 tool_name =>
            if acc2.2.contains tool_name then acc2
            else (acc2.1 ++ [s!"Used tool: {tool_name}"], acc2.2 ++ [tool_name]))
          acc)
    ([], [])

/-- Search for the final AI message of the loop result
(src/agents/research.py, lines 155-161): the last message with
`msg.type == 'ai'` carrying no tool calls. -/
def findFinalAiMessage (msgs : List Msg) : Option Msg :=
  msgs.reverse.find? (fun m => m.role == .ai && m.tool_calls.isEmpty)

/-- Message appended to the transcript by the research agent
(src/agents/research.py, lines 163-169): the final non-tool-call AI
message, or, as a fallback, the very last message of the loop result. -/
def appendedMessage (result : List Msg) (h : result ≠ []) : Msg :=
  match findFinalAiMessage result with
  | some m => m
  | none => result.getLast h

/-- Failure branch of `ResearchSupervisor.execute` (src/agents/research.py,
lines 179-186): record a synthetic observation, a generic
`final_output`, and still route to synthesis.  `last_agent`,
`context_tool_history` and `messages` are left unchanged. -/
def failPath (errText : String) (s : AgentState) : AgentState :=
  { s with context_observations := [s!"Research failed: {errText}"]
           context_final_output := some "Unable to complete research due to an error."
           next_agent := "synthesis"
           iteration := s.iteration + 1 }

/-- Embedding of `ResearchSupervisor.execute` (src/agents/research.py,
lines 81-186).  `result` is the oracle for the ReAct tool loop
`self.agent.invoke(...)["messages"]` (`none` models the loop raising); the
whole body sits inside one `try`, so the function is total.  When the loop
returns an empty list, `result["messages"][-1]` (line 128) raises
`IndexError` inside the `try` — the `except` then overwrites the
observations and `final_output`, but `tool_history` keeps the `[]` written
at line 125. -/
def execute (_cfg : AgentConfig) (result : Option (List Msg)) (errText : String)
    (s : AgentState) : AgentState :=
  match result with
  | none => failPath errText s
  | some msgs =>
    if h : msgs = [] then
      { failPath "list index out of range" s with context_tool_history := [] }
    else
      let scan := scanToolCalls msgs
      let final_output := (msgs.getLast h).content
      { s with context_observations := scan.1
               context_tool_history := scan.2
               context_final_output := some final_output
               messages := s.messages ++ [appendedMessage msgs h]
               next_agent := "synthesis"
               last_agent := some "research"
               iteration := s.iteration + 1 }

end ResearchSupervisor

/-- Graph nodes of the compiled LangGraph workflow
(src/graph/workflow.py, `AgentWorkflow._build_graph`, lines 97-144). -/
inductive Node where
  | orchestrator
  | clarification
  | research
  | synthesis
deriving DecidableEq, Repr

/-- Per-agent configurations handed to `AgentWorkflow.__init__`
(`agent_configs`). -/
structure WorkflowConfigs where
  orchestrator : AgentConfig := {}
  clarification : AgentConfig := {}
  research : AgentConfig := {}
  synthesis : AgentConfig := {}
deriving DecidableEq, Repr

/-- Completion/tool-loop oracle for one graph invocation: the outcome of
each agent's capability call during the turn (`none` models the call
raising). -/
structure Oracle where
  orchestratorDecision : Option String
  clarificationText : Option String
  researchResult : Option (List Msg)
  researchErrText : String := ""
  synthesisText : Option String
deriving DecidableEq, Repr

namespace AgentWorkflow

/-- Node execution: each graph node runs the corresponding agent's
`execute` (src/graph/workflow.py, lines 111-114). -/
def execNode (cfgs : WorkflowConfigs) (o : Oracle) :
    Node → AgentState → Except Unit AgentState
  | .orchestrator, s => MasterOrchestrator.execute cfgs.orchestrator o.orchestratorDecision s
  | .clarification, s => ClarificationAgent.execute cfgs.clarification o.clarificationText s
  | .research, s => .ok (ResearchSupervisor.execute cfgs.research o.researchResult o.researchErrText s)
  | .synthesis, s => .ok (AnswerSynthesisAgent.execute cfgs.synthesis o.synthesisText s)

/-- Graph edges (src/graph/workflow.py, lines 117-140): conditional edges
out of `orchestrator` keyed by `state["next_agent"]` (any other value makes
the edge mapping raise, modelled by `.error ()`); `clarification → END`,
`research → synthesis`, `synthesis → END`.  `none` is the END node. -/
def succNode : Node → AgentState → Except Unit (Option Node)
  | .orchestrator, s =>
    if s.next_agent = "clarification" then .ok (some .clarification)
    else if s.next_agent = "research" then .ok (some .research)
    else .error ()
  | .clarification, _ => .ok none
  | .research, _ => .ok (some .synthesis)
  | .synthesis, _ => .ok none

/-- Fuelled small-step driver for `AgentWorkflow.invoke`
(src/graph/workflow.py, lines 146-160): starting at a node, execute it,
follow the edge, and repeat; `fuel` bounds the number of node executions
(the graph is finite and acyclic, so a small fuel suffices — proved
below).  Returns the final state once the END node (`none`) is reached. -/
def runAux (cfgs : WorkflowConfigs) (o : Oracle) :
    Nat → Option Node → AgentState → Except Unit (Option Node × AgentState)
  | _, none, s => .ok (none, s)
  | 0, some n, s => .ok (some n, s)
  | fuel + 1, some n, s =>
    match execNode cfgs o n s with
    | .error e => .error e
    | .ok s' =>
      match succNode n s' with
      | .error e => .error e
      | .ok nxt => runAux cfgs o fuel nxt s'

/-- Workflow-engine errors: `valueError` models the
`ValueError("Checkpointer not initialized ...")` raised by the
thread-management operations, `transportError` models an exception raised
by the underlying checkpoint store. -/
inductive WfError where
  | valueError
  | transportError
deriving DecidableEq, Repr

/-- A checkpoint handle (contents irrelevant to the thread-management
claims; only existence and count are observed). -/
structure Checkpoint where
  id : Nat
deriving DecidableEq, Repr

/-- Checkpoint-store capability behind `self.checkpointer` /
`self.graph.get_state`: listing a thread's checkpoints, deleting a thread,
and reading the latest graph state snapshot.  An `.error ()` result models
the underlying call raising. -/
structure Checkpointer where
  listThread : String → Except Unit (List Checkpoint)
  deleteThreadOp : String → Except Unit Unit
  getGraphState : String → Except Unit AgentState

/-- Embedding of `AgentWorkflow.get_thread_history` (src/graph/workflow.py,
lines 182-200): raises `ValueError` without a checkpointer, otherwise
returns `list(self.checkpointer.list(config))`, propagating store errors. -/
def get_thread_history (cp : Option Checkpointer) (thread_id : String) :
    Except WfError (List Checkpoint) :=
  match cp with
  | none => .error .valueError
  | some c => (c.listThread thread_id).mapError (fun _ => .transportError)

/-- Embedding of `AgentWorkflow.get_thread_state` (src/graph/workflow.py,
lines 162-180): raises `ValueError` without a checkpointer, otherwise
returns `self.graph.get_state(config).values`. -/
def get_thread_state (cp : Option Checkpointer) (thread_id : String) :
    Except WfError AgentState :=
  match cp with
  | none => .error .valueError
  | some c => (c.getGraphState thread_id).mapError (fun _ => .transportError)

/-- Embedding of `AgentWorkflow.delete_thread` (src/graph/workflow.py,
lines 202-215): raises `ValueError` without a checkpointer, otherwise
delegates to `self.checkpointer.delete_thread(thread_id)`. -/
def delete_thread (cp : Option Checkpointer) (thread_id : String) :
    Except WfError Unit :=
  match cp with
  | none => .error .valueError
  | some c => (c.deleteThreadOp thread_id).mapError (fun _ => .transportError)

/-- Embedding of `AgentWorkflow.thread_exists` (src/graph/workflow.py,
lines 217-233): `False` without a checkpointer; otherwise
`len(self.get_thread_history(thread_id)) > 0`, with any exception caught
and turned into `False`. -/
def thread_exists (cp : Option Checkpointer) (thread_id : String) : Bool :=
  match cp with
  | none => false
  | some _ =>
    match get_thread_history cp thread_id with
    | .ok checkpoints => decide (0 < checkpoints.length)
    | .error _ => false

end AgentWorkflow

namespace PDFRetrievalTool

/-- A document returned by `rag_service.retriever.retrieve`: dict with
`text`, `source`, `page`, `score` (similarity scores modelled as exact
rationals). -/
structure RetrievedDoc where
  text : String
  source : String
  page : Nat
  score : ℚ
deriving DecidableEq, Repr

/-- Similarity filter of `PDFRetrievalTool._run`
(src/agents/tools/pdf_retrieval.py, line 44):
`[doc for doc in documents if doc['score'] > self.min_similarity_score]`. -/
def filteredDocs (min_similarity_score : ℚ) (documents : List RetrievedDoc) :
    List RetrievedDoc :=
  documents.filter (fun doc => min_similarity_score < doc.score)

/-- Two-decimal rendering standing in for Python's `f"{score:.2f}"`
(the claims settled here do not depend on the rendered digits). -/
def fmtScore (score : ℚ) : String :=
  let cents := (score * 100).floor
  let whole := cents / 100
  let frac := (cents % 100).natAbs
  let fracStr := if frac < 10 then s!"0{frac}" else s!"{frac}"
  s!"{whole}.{fracStr}"

/-- Message returned when every candidate is filtered out
(src/agents/tools/pdf_retrieval.py, line 48). -/
def noRelevantMessage (min_similarity_score : ℚ) : String :=
  s!"No relevant documents found in the academic papers (all similarity scores ≤ {min_similarity_score})."

/-- Embedding of `PDFRetrievalTool._run`
(src/agents/tools/pdf_retrieval.py, lines 34-57), taking the retriever's
result list as input: filter by the minimum similarity score
(default 0.5), and either report no relevant documents or format the
surviving chunks for the model. -/
def run (min_similarity_score : ℚ) (documents : List RetrievedDoc) : String :=
  let filtered_docs := filteredDocs min_similarity_score documents
  if filtered_docs.isEmpty then
    noRelevantMessage min_similarity_score
  else
    let formatted := filtered_docs.enum.map (fun p =>
      let i := p.1 + 1
      let doc := p.2
      let src := doc.source
      let pg := doc.page
      let sc := fmtScore doc.score
      let txt := doc.text
      s!"[Document {i}] (Source: {src}, Page: {pg}, Score: {sc})\n{txt}\n")
    String.intercalate "\n" formatted

end PDFRetrievalTool

/-! ## Helper lemmas -/

theorem lastWindow_ne_nil (max_history : Nat) {msgs : List Msg} (h : msgs ≠ []) :
    lastWindow max_history msgs ≠ [] := by
  unfold lastWindow
  split
  · split
    · exact h
    · intro hd
      rename_i hlt hz
      have hle := List.drop_eq_nil_iff.mp hd
      omega
  · exact h

theorem lastWindow_isEmpty_false (max_history : Nat) {msgs : List Msg} (h : msgs ≠ []) :
    (lastWindow max_history msgs).isEmpty = false := by
  have := lastWindow_ne_nil max_history h
  simp [List.isEmpty_iff, this]

/-! ## C2: the counter guard (layer 1) -/

/-- C2: whenever `clarification_count >= max_clarifications` on entry,
`MasterOrchestrator.execute` returns immediately with
`next_agent = "research"`, `clarification_count` reset to 0,
`clarification_needed = false`, and `iteration` incremented by exactly 1 —
for every Completion oracle `decision` (so deterministically, without the
result depending on the Completion capability) and for every message
list. -/
theorem MasterOrchestrator.counter_guard_spec (cfg : AgentConfig)
    (decision : Option String) (s : AgentState)
    (h : cfg.max_clarifications ≤ s.clarification_count) :
    MasterOrchestrator.execute cfg decision s =
      .ok { s with next_agent := "research"
                   clarification_needed := false
                   clarification_count := 0
                   iteration := s.iteration + 1 } := by
  unfold MasterOrchestrator.execute
  rw [if_pos h]

/-- Witness for C2 at a concrete input: `clarification_count = 2` with the
default `max_clarifications = 2`. -/
theorem MasterOrchestrator.counter_guard_spec_witness :
    MasterOrchestrator.execute {} (some "CLARIFICATION")
      { create_initial_state [{ role := .human, content := "hi" }] "s1" with
          clarification_count := 2 } =
      .ok { create_initial_state [{ role := .human, content := "hi" }] "s1" with
              clarification_count := 0
              next_agent := "research"
              clarification_needed := false
              iteration := 1 } :=
  MasterOrchestrator.counter_guard_spec {} (some "CLARIFICATION") _ (by decide)

/-! ## C3: the follow-up pattern guard (layer 2) -/

/-- C3: with `clarification_count < max_clarifications`, if the truncated
window has at least two messages, the second-to-last is an Assistant
message, the last is a User message, and `last_agent = "clarification"`,
then `MasterOrchestrator.execute` routes to research, resets
`clarification_count` to 0 and increments `iteration` by 1, with a result
independent of the Completion oracle `decision`. -/
theorem MasterOrchestrator.followup_guard_spec (cfg : AgentConfig)
    (decision : Option String) (s : AgentState)
    (hcap : s.clarification_count < cfg.max_clarifications)
    (hlen : 2 ≤ (lastWindow cfg.max_history s.messages).length)
    (hprev : msgRoleIs (lastWindow cfg.max_history s.messages).dropLast.getLast? .ai = true)
    (hcur : msgRoleIs (lastWindow cfg.max_history s.messages).getLast? .human = true)
    (hla : s.last_agent = some "clarification") :
    MasterOrchestrator.execute cfg decision s =
      .ok { s with next_agent := "research"
                   clarification_needed := false
                   clarification_count := 0
                   iteration := s.iteration + 1 } := by
  unfold MasterOrchestrator.execute
  rw [if_neg (by omega)]
  rw [if_pos (by simp [MasterOrchestrator.layer2Fires, hlen, hprev, hcur, hla])]

/-- Witness for C3 at a concrete input: transcript
(User, Assistant, User) right after a clarification turn. -/
theorem MasterOrchestrator.followup_guard_spec_witness :
    MasterOrchestrator.execute {} (some "CLARIFICATION")
      { create_initial_state
          [{ role := .human, content := "hi" },
           { role := .ai, content := "what do you mean?" },
           { role := .human, content := "text-to-SQL accuracy" }] "s1" with
          last_agent := some "clarification"
          clarification_count := 1
          iteration := 1 } =
      .ok { create_initial_state
              [{ role := .human, content := "hi" },
               { role := .ai, content := "what do you mean?" },
               { role := .human, content := "text-to-SQL accuracy" }] "s1" with
              last_agent := some "clarification"
              clarification_count := 0
              next_agent := "research"
              clarification_needed := false
              iteration := 2 } :=
  MasterOrchestrator.followup_guard_spec {} (some "CLARIFICATION") _
    (by decide) (by decide) (by decide) (by decide) (by decide)

/-! ## C6: confidence scoring -/

/-- C6: `_calculate_confidence` maps 0 observations to 0.0, exactly 1 to
0.6, exactly 2 to 0.8, and 3 or more to 0.95, and is monotone
non-decreasing in the number of observations. -/
theorem AnswerSynthesisAgent.confidence_spec :
    (∀ observations : List String,
      (observations.length = 0 →
        AnswerSynthesisAgent.calculate_confidence observations = 0) ∧
      (observations.length = 1 →
        AnswerSynthesisAgent.calculate_confidence observations = 6/10) ∧
      (observations.length = 2 →
        AnswerSynthesisAgent.calculate_confidence observations = 8/10) ∧
      (3 ≤ observations.length →
        AnswerSynthesisAgent.calculate_confidence observations = 95/100)) ∧
    (∀ obs₁ obs₂ : List String, obs₁.length ≤ obs₂.length →
      AnswerSynthesisAgent.calculate_confidence obs₁ ≤
        AnswerSynthesisAgent.calculate_confidence obs₂) := by
  constructor
  · intro observations
    refine ⟨?_, ?_, ?_, ?_⟩ <;>
      · intro h
        simp only [AnswerSynthesisAgent.calculate_confidence]
        split_ifs <;> first | rfl | omega
  · intro obs₁ obs₂ h
    simp only [AnswerSynthesisAgent.calculate_confidence]
    split_ifs <;> (try norm_num) <;> omega

/-- Witness for C6 at concrete inputs: observation lists of length 0, 1,
2, 3 and a monotone pair. -/
theorem AnswerSynthesisAgent.confidence_spec_witness :
    AnswerSynthesisAgent.calculate_confidence [] = 0 ∧
    AnswerSynthesisAgent.calculate_confidence ["a"] = 6/10 ∧
    AnswerSynthesisAgent.calculate_confidence ["a", "b"] = 8/10 ∧
    AnswerSynthesisAgent.calculate_confidence ["a", "b", "c", "d"] = 95/100 ∧
    AnswerSynthesisAgent.calculate_confidence ["a"] ≤
      AnswerSynthesisAgent.calculate_confidence ["a", "b", "c"] :=
  ⟨(AnswerSynthesisAgent.confidence_spec.1 []).1 rfl,
   (AnswerSynthesisAgent.confidence_spec.1 ["a"]).2.1 rfl,
   (AnswerSynthesisAgent.confidence_spec.1 ["a", "b"]).2.2.1 rfl,
   (AnswerSynthesisAgent.confidence_spec.1 ["a", "b", "c", "d"]).2.2.2 (by decide),
   AnswerSynthesisAgent.confidence_spec.2 ["a"] ["a", "b", "c"] (by decide)⟩

/-! ## C9: retrieval filtering in the research tool adapter -/

/-- Every document below (or at) the minimum similarity score is excluded
by the filter. -/
theorem PDFRetrievalTool.not_mem_filtered {min_similarity_score : ℚ}
    {documents : List RetrievedDoc} {doc : RetrievedDoc}
    (h : doc.score ≤ min_similarity_score) :
    doc ∉ PDFRetrievalTool.filteredDocs min_similarity_score documents := by
  unfold PDFRetrievalTool.filteredDocs
  intro hmem
  have := (List.mem_filter.mp hmem).2
  simp only [decide_eq_true_eq] at this
  exact absurd this (not_lt.mpr h)

/-- C9: `PDFRetrievalTool._run` excludes every document whose similarity
score is below the configured minimum before formatting (every document
surviving the filter scores strictly above the minimum, so every document
scoring at or below it — in particular below it — is excluded), and when
every candidate is filtered out it returns the non-empty "no relevant
documents" message. -/
theorem PDFRetrievalTool.run_filter_spec (min_similarity_score : ℚ)
    (documents : List RetrievedDoc) :
    (∀ doc ∈ PDFRetrievalTool.filteredDocs min_similarity_score documents,
        min_similarity_score < doc.score) ∧
    (∀ doc ∈ documents, doc.score < min_similarity_score →
        doc ∉ PDFRetrievalTool.filteredDocs min_similarity_score documents) ∧
    (PDFRetrievalTool.filteredDocs min_similarity_score documents = [] →
        PDFRetrievalTool.run min_similarity_score documents =
          PDFRetrievalTool.noRelevantMessage min_similarity_score ∧
        PDFRetrievalTool.run min_similarity_score documents ≠ "") := by
  refine ⟨?_, ?_, ?_⟩
  · intro doc hmem
    have := (List.mem_filter.mp hmem).2
    simpa using this
  · intro doc _ hlt
    exact PDFRetrievalTool.not_mem_filtered (le_of_lt hlt)
  · intro hempty
    have hrun : PDFRetrievalTool.run min_similarity_score documents =
        PDFRetrievalTool.noRelevantMessage min_similarity_score := by
      unfold PDFRetrievalTool.run
      rw [hempty]
      rfl
    refine ⟨hrun, ?_⟩
    rw [hrun]
    unfold PDFRetrievalTool.noRelevantMessage
    intro hcontra
    have hlen := congrArg String.length hcontra
    simp [String.length_append] at hlen
    exact absurd hlen.2 (by decide)

/-! ## C4: fail-open on Completion errors -/

/-- Fallback text produced by the synthesis failure branch for a given
state: `context.final_output` verbatim, or the generic error string when
that is falsy. -/
def AnswerSynthesisAgent.fallbackFor (s : AgentState) : String :=
  if (s.context_final_output.getD "") = "" then AnswerSynthesisAgent.genericError
  else (s.context_final_output).getD ""

/-- C4: when Completion raises (oracle `none`) inside Clarification,
Research, or Synthesis, the turn still ends with a non-null `final_answer`
and `next_agent = "END"`: Clarification appends exactly the fallback text
as an Assistant message, sets it as `final_answer`, and sets
`next_agent = "END"` and `last_agent = "clarification"`; Synthesis falls
back to `context.final_output` verbatim (or the generic error string when
it is absent/empty) with `confidence_score = 0.0`; Research routes to
synthesis, after which Synthesis — succeeding or failing — ends the turn
with a non-null `final_answer`.  The hypothesis `s.messages ≠ []` holds in
any execution that reaches the Completion call (Clarification reads
`messages[-1]` before calling Completion). -/
theorem agents_fail_open_spec (ccfg rcfg scfg : AgentConfig) (s : AgentState)
    (errText : String) (h : s.messages ≠ []) :
    (ClarificationAgent.execute ccfg none s =
      .ok { s with
              messages := s.messages ++
                [{ role := .ai, content := ClarificationAgent.fallbackText }]
              final_answer := some ClarificationAgent.fallbackText
              next_agent := "END"
              last_agent := some "clarification" }) ∧
    (AnswerSynthesisAgent.execute scfg none s =
      { s with
          messages := s.messages ++
            [{ role := .ai, content := AnswerSynthesisAgent.fallbackFor s }]
          final_answer := some (AnswerSynthesisAgent.fallbackFor s)
          confidence_score := some 0
          next_agent := "END" }) ∧
    ((ResearchSupervisor.execute rcfg none errText s).next_agent = "synthesis") ∧
    (∀ answer : Option String,
       (AnswerSynthesisAgent.execute scfg answer
          (ResearchSupervisor.execute rcfg none errText s)).final_answer.isSome = true ∧
       (AnswerSynthesisAgent.execute scfg answer
          (ResearchSupervisor.execute rcfg none errText s)).next_agent = "END") := by
  refine ⟨?_, ?_, ?_, ?_⟩
  · simp [ClarificationAgent.execute, lastWindow_isEmpty_false ccfg.max_history h]
  · simp [AnswerSynthesisAgent.execute, AnswerSynthesisAgent.fallbackFor]
  · simp [ResearchSupervisor.execute, ResearchSupervisor.failPath]
  · intro answer
    cases answer with
    | some text =>
      simp [AnswerSynthesisAgent.execute]
    | none =>
      constructor
      · simp [AnswerSynthesisAgent.execute, ResearchSupervisor.execute,
              ResearchSupervisor.failPath]
      · simp [AnswerSynthesisAgent.execute]

/-- Witness for C4 at a concrete input: a single-user-message state with
every Completion call failing. -/
theorem agents_fail_open_spec_witness :
    (ClarificationAgent.execute {} none
        (create_initial_state [{ role := .human, content := "hi" }] "s1") =
      .ok { create_initial_state [{ role := .human, content := "hi" }] "s1" with
              messages := [{ role := .human, content := "hi" },
                           { role := .ai, content := ClarificationAgent.fallbackText }]
              final_answer := some ClarificationAgent.fallbackText
              next_agent := "END"
              last_agent := some "clarification" }) ∧
    (AnswerSynthesisAgent.execute {} none
        (ResearchSupervisor.execute {} none "boom"
          (create_initial_state [{ role := .human, content := "hi" }] "s1"))).final_answer.isSome
      = true :=
  ⟨((agents_fail_open_spec {} {} {}
      (create_initial_state [{ role := .human, content := "hi" }] "s1") "boom"
      (by decide)).1).trans rfl,
   ((agents_fail_open_spec {} {} {}
      (create_initial_state [{ role := .human, content := "hi" }] "s1") "boom"
      (by decide)).2.2.2 none).1⟩

/-! ## C5: the research agent's transcript and state updates -/

/-- C5 as amended: for every execution of the Research agent in which the
ReAct tool loop returns normally with a non-empty message list, the only
message appended to `state.messages` is the last AI message of the loop
result carrying no tool calls (or, if no such message exists, the very
last message of the loop), the returned state has `context.final_output`
set, `next_agent = "synthesis"`, `last_agent = "research"`, and
`iteration` incremented by exactly 1.  When the loop raises, the code
instead appends nothing, leaves `last_agent` unchanged, and still sets
`context.final_output`, `next_agent = "synthesis"` and increments
`iteration`. -/
theorem ResearchSupervisor.execute_spec (cfg : AgentConfig) (result : List Msg)
    (errText : String) (s : AgentState) (h : result ≠ []) :
    (ResearchSupervisor.execute cfg (some result) errText s =
      { s with
          context_observations := (ResearchSupervisor.scanToolCalls result).1
          context_tool_history := (ResearchSupervisor.scanToolCalls result).2
          context_final_output := some (result.getLast h).content
          messages := s.messages ++ [ResearchSupervisor.appendedMessage result h]
          next_agent := "synthesis"
          last_agent := some "research"
          iteration := s.iteration + 1 }) ∧
    (∀ m, ResearchSupervisor.findFinalAiMessage result = some m →
      ResearchSupervisor.appendedMessage result h = m ∧
      m.role = .ai ∧ m.tool_calls = []) ∧
    (ResearchSupervisor.findFinalAiMessage result = none →
      ResearchSupervisor.appendedMessage result h = result.getLast h) ∧
    ((ResearchSupervisor.execute cfg none errText s).messages = s.messages ∧
     (ResearchSupervisor.execute cfg none errText s).last_agent = s.last_agent ∧
     (ResearchSupervisor.execute cfg none errText s).context_final_output =
       some "Unable to complete research due to an error." ∧
     (ResearchSupervisor.execute cfg none errText s).next_agent = "synthesis" ∧
     (ResearchSupervisor.execute cfg none errText s).iteration = s.iteration + 1) := by
  refine ⟨?_, ?_, ?_, ?_⟩
  · simp [ResearchSupervisor.execute, h]
  · intro m hm
    have hfind := List.find?_some hm
    simp only [Bool.and_eq_true, beq_iff_eq, List.isEmpty_iff] at hfind
    refine ⟨?_, hfind.1, hfind.2⟩
    unfold ResearchSupervisor.appendedMessage
    rw [hm]
  · intro hnone
    unfold ResearchSupervisor.appendedMessage
    rw [hnone]
  · refine ⟨?_, ?_, ?_, ?_, ?_⟩ <;>
      simp [ResearchSupervisor.execute, ResearchSupervisor.failPath]

/-- Witness for C5 at a concrete loop result: a tool-call message, a tool
response, and a final AI answer — only the final answer is appended. -/
theorem ResearchSupervisor.execute_spec_witness :
    ResearchSupervisor.execute {}
      (some [{ role := .ai, content := "", tool_calls := ["pdf_retrieval"] },
             { role := .tool, content := "chunk" },
             { role := .ai, content := "final answer" }]) ""
      (create_initial_state [{ role := .human, content := "hi" }] "s1") =
      { create_initial_state [{ role := .human, content := "hi" }] "s1" with
          context_observations := ["Used tool: pdf_retrieval"]
          context_tool_history := ["pdf_retrieval"]
          context_final_output := some "final answer"
          messages := [{ role := .human, content := "hi" },
                       { role := .ai, content := "final answer" }]
          next_agent := "synthesis"
          last_agent := some "research"
          iteration := 1 } :=
  ((ResearchSupervisor.execute_spec {}
      [{ role := .ai, content := "", tool_calls := ["pdf_retrieval"] },
       { role := .tool, content := "chunk" },
       { role := .ai, content := "final answer" }] ""
      (create_initial_state [{ role := .human, content := "hi" }] "s1")
      (by decide)).1).trans rfl

/-- Counterexample to C5 as stated: when the tool loop raises, the
execution of the Research agent appends no message and leaves `last_agent`
unchanged (here `none`, not `"research"`), so "after every execution ...
last_agent = research and the (one) appended message is ..." is false. -/
theorem ResearchSupervisor.execute_error_path_cex :
    (ResearchSupervisor.execute {} none "boom"
        (create_initial_state [{ role := .human, content := "hi" }] "s1")).last_agent
      ≠ some "research" ∧
    (ResearchSupervisor.execute {} none "boom"
        (create_initial_state [{ role := .human, content := "hi" }] "s1")).messages
      = [{ role := .human, content := "hi" }] := by
  constructor
  · decide
  · decide

/-! ## C8: thread-management operations without a checkpoint store -/

/-- C8 as amended: with no checkpoint store configured, `thread_exists`
returns `False`, but `get_thread_state` and `delete_thread` are not
no-ops — they raise `ValueError("Checkpointer not initialized ...")`
(modelled by `.error .valueError`), exactly as their docstrings state. -/
theorem AgentWorkflow.thread_ops_no_checkpointer_spec (thread_id : String) :
    AgentWorkflow.thread_exists none thread_id = false ∧
    AgentWorkflow.get_thread_state none thread_id = .error .valueError ∧
    AgentWorkflow.delete_thread none thread_id = .error .valueError :=
  ⟨rfl, rfl, rfl⟩

/-- Counterexample to C8 as stated: at the concrete thread id
`"session-1"`, `get_thread_state` and `delete_thread` raise (return
`.error .valueError`, the model of the `ValueError` raise) instead of
being no-ops, so "none of the three thread-management operations raises"
is false. -/
theorem AgentWorkflow.thread_ops_raise_cex :
    AgentWorkflow.get_thread_state none "session-1" = .error .valueError ∧
    AgentWorkflow.delete_thread none "session-1" = .error .valueError :=
  ⟨rfl, rfl⟩

/-! ## C10: totality of thread_exists -/

/-- C10: `thread_exists` is a total Boolean function (so it never raises):
without a checkpointer it returns `false`; with a checkpointer whose
listing raises it returns `false` instead of propagating the error; and
with a checkpointer whose listing succeeds it returns `true` exactly when
the thread has at least one checkpoint. -/
theorem AgentWorkflow.thread_exists_total_spec (c : AgentWorkflow.Checkpointer)
    (thread_id : String) :
    (AgentWorkflow.thread_exists none thread_id = false) ∧
    (∀ e, c.listThread thread_id = .error e →
      AgentWorkflow.thread_exists (some c) thread_id = false) ∧
    (∀ checkpoints, c.listThread thread_id = .ok checkpoints →
      AgentWorkflow.thread_exists (some c) thread_id =
        decide (0 < checkpoints.length)) := by
  refine ⟨rfl, ?_, ?_⟩
  · intro e he
    simp [AgentWorkflow.thread_exists, AgentWorkflow.get_thread_history, he,
          Except.mapError]
  · intro checkpoints hok
    simp [AgentWorkflow.thread_exists, AgentWorkflow.get_thread_history, hok,
          Except.mapError]

/-- Checkpoint store whose listing operation always raises. -/
def failingStore : AgentWorkflow.Checkpointer :=
  { listThread := fun _ => .error ()
    deleteThreadOp := fun _ => .ok ()
    getGraphState := fun _ => .error () }

/-- Checkpoint store holding two checkpoints for every thread. -/
def twoCheckpointStore : AgentWorkflow.Checkpointer :=
  { listThread := fun _ => .ok [{ id := 0 }, { id := 1 }]
    deleteThreadOp := fun _ => .ok ()
    getGraphState := fun _ => .error () }

/-- Witness for C10 at concrete checkpoint stores: a raising store yields
`false`, a store with two checkpoints yields `true`. -/
theorem AgentWorkflow.thread_exists_total_spec_witness :
    AgentWorkflow.thread_exists (some failingStore) "session-1" = false ∧
    AgentWorkflow.thread_exists (some twoCheckpointStore) "session-1" = true :=
  ⟨(AgentWorkflow.thread_exists_total_spec failingStore "session-1").2.1 () rfl,
   ((AgentWorkflow.thread_exists_total_spec twoCheckpointStore "session-1").2.2
      [{ id := 0 }, { id := 1 }] rfl).trans rfl⟩

/-! ## C7: the clarification counter invariant -/

/-- The orchestrator preserves the upper bound on `clarification_count`:
layers 1 and 2 reset it to 0, layer 3 increments it only when it is still
below the cap, and the layer-3 failure fallback leaves it unchanged. -/
theorem MasterOrchestrator.execute_count_le {cfg : AgentConfig}
    {decision : Option String} {s s' : AgentState}
    (hok : MasterOrchestrator.execute cfg decision s = .ok s')
    (hs : s.clarification_count ≤ cfg.max_clarifications) :
    s'.clarification_count ≤ cfg.max_clarifications := by
  simp only [MasterOrchestrator.execute] at hok
  split at hok
  · injection hok with h
    subst h
    simp
  · split at hok
    · injection hok with h
      subst h
      simp
    · split at hok
      · exact absurd hok (by simp)
      · split at hok
        · split at hok
          · injection hok with h
            subst h
            simp only []
            omega
          · injection hok with h
            subst h
            simp
        · injection hok with h
          subst h
          exact hs

/-- The clarification agent never changes `clarification_count`. -/
theorem ClarificationAgent.clarification_count_unchanged {cfg : AgentConfig}
    {text : Option String} {s s' : AgentState}
    (hok : ClarificationAgent.execute cfg text s = .ok s') :
    s'.clarification_count = s.clarification_count := by
  simp only [ClarificationAgent.execute] at hok
  split at hok
  · exact absurd hok (by simp)
  · split at hok <;>
      · injection hok with h
        subst h
        rfl

/-- The research agent never changes `clarification_count`. -/
theorem ResearchSupervisor.research_count_unchanged (cfg : AgentConfig)
    (result : Option (List Msg)) (errText : String) (s : AgentState) :
    (ResearchSupervisor.execute cfg result errText s).clarification_count =
      s.clarification_count := by
  cases result with
  | none => rfl
  | some msgs =>
    by_cases hm : msgs = []
    · simp [ResearchSupervisor.execute, hm, ResearchSupervisor.failPath]
    · simp [ResearchSupervisor.execute, hm]

/-- The synthesis agent never changes `clarification_count`. -/
theorem AnswerSynthesisAgent.synthesis_count_unchanged (cfg : AgentConfig)
    (answer : Option String) (s : AgentState) :
    (AnswerSynthesisAgent.execute cfg answer s).clarification_count =
      s.clarification_count := by
  cases answer <;> rfl

/-- States reachable from some initial state through any sequence of agent
executions (with arbitrary capability-call outcomes), allowing a new user
message to be appended at each turn boundary (src/apis/routes/chat.py,
lines 99-121). -/
inductive ReachableState (cfgs : WorkflowConfigs) : AgentState → Prop where
  | init (messages : List Msg) (session_id : String) :
      ReachableState cfgs (create_initial_state messages session_id)
  | orch {s s' : AgentState} (decision : Option String)
      (hr : ReachableState cfgs s)
      (hok : MasterOrchestrator.execute cfgs.orchestrator decision s = .ok s') :
      ReachableState cfgs s'
  | clar {s s' : AgentState} (text : Option String)
      (hr : ReachableState cfgs s)
      (hok : ClarificationAgent.execute cfgs.clarification text s = .ok s') :
      ReachableState cfgs s'
  | research {s : AgentState} (result : Option (List Msg)) (errText : String)
      (hr : ReachableState cfgs s) :
      ReachableState cfgs (ResearchSupervisor.execute cfgs.research result errText s)
  | synth {s : AgentState} (answer : Option String)
      (hr : ReachableState cfgs s) :
      ReachableState cfgs (AnswerSynthesisAgent.execute cfgs.synthesis answer s)
  | userTurn {s : AgentState} (m : Msg)
      (hr : ReachableState cfgs s) :
      ReachableState cfgs { s with messages := s.messages ++ [m] }

/-- C7 as amended: on every reachable state, `clarification_count` stays
in `[0, max_clarifications]` (the lower bound holds since the counter is a
natural number); and whenever `MasterOrchestrator.execute` returns
`next_agent = "research"` via the counter guard, the follow-up guard, or
the model-driven decision (oracle `some d`), the returned state has
`clarification_count = 0`.  The failure fallback of the model-driven layer
(oracle `none`) also routes to research, but leaves `clarification_count`
unchanged rather than resetting it. -/
theorem clarification_count_spec (cfgs : WorkflowConfigs) :
    (∀ s : AgentState, ReachableState cfgs s →
        s.clarification_count ≤ cfgs.orchestrator.max_clarifications) ∧
    (∀ (d : String) (s s' : AgentState),
        MasterOrchestrator.execute cfgs.orchestrator (some d) s = .ok s' →
        s'.next_agent = "research" → s'.clarification_count = 0) ∧
    (∀ (s s' : AgentState),
        MasterOrchestrator.execute cfgs.orchestrator none s = .ok s' →
        s'.next_agent = "research" ∧
          (s'.clarification_count = 0 ∨
            s'.clarification_count = s.clarification_count)) := by
  refine ⟨?_, ?_, ?_⟩
  · intro s h
    induction h with
    | init messages session_id => simp [create_initial_state]
    | orch decision hr hok ih => exact MasterOrchestrator.execute_count_le hok ih
    | clar text hr hok ih => rw [ClarificationAgent.clarification_count_unchanged hok]; exact ih
    | research result errText hr ih =>
        rw [ResearchSupervisor.research_count_unchanged]; exact ih
    | synth answer hr ih =>
        rw [AnswerSynthesisAgent.synthesis_count_unchanged]; exact ih
    | userTurn m hr ih => exact ih
  · intro d s s' hok hnext
    simp only [MasterOrchestrator.execute] at hok
    split at hok
    · injection hok with h
      subst h
      rfl
    · split at hok
      · injection hok with h
        subst h
        rfl
      · split at hok
        · exact absurd hok (by simp)
        · split at hok
          · injection hok with h
            subst h
            simp at hnext
          · injection hok with h
            subst h
            rfl
  · intro s s' hok
    simp only [MasterOrchestrator.execute] at hok
    split at hok
    · injection hok with h
      subst h
      exact ⟨rfl, .inl rfl⟩
    · split at hok
      · injection hok with h
        subst h
        exact ⟨rfl, .inl rfl⟩
      · split at hok
        · exact absurd hok (by simp)
        · injection hok with h
          subst h
          exact ⟨rfl, .inr rfl⟩

/-- Witness for C7 at concrete inputs: the initial state is reachable and
satisfies the bound, and a concrete model-driven research decision resets
the counter to 0. -/
theorem clarification_count_spec_witness :
    (create_initial_state [{ role := .human, content := "hi" }] "s1").clarification_count ≤
      ({} : WorkflowConfigs).orchestrator.max_clarifications ∧
    ({ create_initial_state [{ role := .human, content := "hi" }] "s1" with
         next_agent := "research"
         clarification_needed := false
         clarification_count := 0
         iteration := 1 } : AgentState).clarification_count = 0 :=
  ⟨(clarification_count_spec {}).1 _ (ReachableState.init _ _),
   (clarification_count_spec {}).2.1 "RESEARCH"
     (create_initial_state [{ role := .human, content := "hi" }] "s1") _ (by rfl) rfl⟩

/-- Entry state for the C7 counterexample: the state the orchestrator
produces when its layer-3 decision is "CLARIFICATION" on the initial state
for a single user message (`clarification_count = 1`; in the running graph
this state is handed to the clarification node). -/
def fallbackCexState : AgentState :=
  { create_initial_state [{ role := .human, content := "hi" }] "s1" with
      next_agent := "clarification"
      clarification_needed := true
      missing_context := ["Query is vague or ambiguous"]
      clarification_count := 1
      iteration := 1 }

/-- Counterexample to C7 as stated: `fallbackCexState` is reachable (first
conjunct: one orchestrator execution away from an initial state), and on
it the failure fallback of the model-driven layer (Completion raising,
oracle `none`) returns `next_agent = "research"` with
`clarification_count = 1`, not 0. -/
theorem MasterOrchestrator.fallback_keeps_count_cex :
    (MasterOrchestrator.execute {} (some "CLARIFICATION")
        (create_initial_state [{ role := .human, content := "hi" }] "s1") =
      .ok fallbackCexState) ∧
    ((MasterOrchestrator.execute {} none fallbackCexState).map
        (fun s' => (s'.next_agent, s'.clarification_count)) =
      .ok ("research", 1)) := by
  constructor
  · rfl
  · rfl

/-! ## C1: per-turn termination of the compiled graph -/

/-- On a non-empty transcript the orchestrator always succeeds and routes
to either clarification or research, leaving the transcript unchanged. -/
theorem MasterOrchestrator.orchestrator_ok_of_ne_nil (cfg : AgentConfig)
    (decision : Option String) (s : AgentState) (h : s.messages ≠ []) :
    ∃ s', MasterOrchestrator.execute cfg decision s = .ok s' ∧
      (s'.next_agent = "clarification" ∨ s'.next_agent = "research") ∧
      s'.messages = s.messages := by
  have hne := lastWindow_isEmpty_false cfg.max_history h
  cases decision with
  | none =>
    simp only [MasterOrchestrator.execute]
    by_cases h1 : cfg.max_clarifications ≤ s.clarification_count
    · rw [if_pos h1]
      exact ⟨_, rfl, .inr rfl, rfl⟩
    · rw [if_neg h1]
      by_cases h2 : MasterOrchestrator.layer2Fires (lastWindow cfg.max_history s.messages)
          s.last_agent = true
      · rw [if_pos h2]
        exact ⟨_, rfl, .inr rfl, rfl⟩
      · rw [if_neg h2, if_neg (by simp [hne])]
        exact ⟨_, rfl, .inr rfl, rfl⟩
  | some d =>
    simp only [MasterOrchestrator.execute]
    by_cases h1 : cfg.max_clarifications ≤ s.clarification_count
    · rw [if_pos h1]
      exact ⟨_, rfl, .inr rfl, rfl⟩
    · rw [if_neg h1]
      by_cases h2 : MasterOrchestrator.layer2Fires (lastWindow cfg.max_history s.messages)
          s.last_agent = true
      · rw [if_pos h2]
        exact ⟨_, rfl, .inr rfl, rfl⟩
      · rw [if_neg h2, if_neg (by simp [hne])]
        by_cases h3 : MasterOrchestrator.mentionsClarification d = true
        · rw [if_pos h3]
          exact ⟨_, rfl, .inl rfl, rfl⟩
        · rw [if_neg h3]
          exact ⟨_, rfl, .inr rfl, rfl⟩

/-- On a non-empty transcript the clarification agent always succeeds and
ends the turn. -/
theorem ClarificationAgent.clarification_ok_of_ne_nil (cfg : AgentConfig)
    (text : Option String) (s : AgentState) (h : s.messages ≠ []) :
    ∃ s', ClarificationAgent.execute cfg text s = .ok s' ∧
      s'.next_agent = "END" := by
  have hne := lastWindow_isEmpty_false cfg.max_history h
  cases text with
  | some t =>
    simp only [ClarificationAgent.execute]
    rw [if_neg (by simp [hne])]
    exact ⟨_, rfl, rfl⟩
  | none =>
    simp only [ClarificationAgent.execute]
    rw [if_neg (by simp [hne])]
    exact ⟨_, rfl, rfl⟩

/-- The research agent always hands the turn to synthesis. -/
theorem ResearchSupervisor.next_agent_synthesis (cfg : AgentConfig)
    (result : Option (List Msg)) (errText : String) (s : AgentState) :
    (ResearchSupervisor.execute cfg result errText s).next_agent = "synthesis" := by
  cases result with
  | none => rfl
  | some msgs =>
    by_cases hm : msgs = []
    · simp [ResearchSupervisor.execute, hm, ResearchSupervisor.failPath]
    · simp [ResearchSupervisor.execute, hm]

/-- The synthesis agent always ends the turn. -/
theorem AnswerSynthesisAgent.next_agent_end (cfg : AgentConfig)
    (answer : Option String) (s : AgentState) :
    (AnswerSynthesisAgent.execute cfg answer s).next_agent = "END" := by
  cases answer <;> rfl

/-- Step equation of the fuelled driver at a live node. -/
theorem AgentWorkflow.runAux_succ (cfgs : WorkflowConfigs) (o : Oracle)
    (fuel : Nat) (n : Node) (s : AgentState) :
    AgentWorkflow.runAux cfgs o (fuel + 1) (some n) s =
      match AgentWorkflow.execNode cfgs o n s with
      | .error e => .error e
      | .ok s' =>
        match AgentWorkflow.succNode n s' with
        | .error e => .error e
        | .ok nxt => AgentWorkflow.runAux cfgs o fuel nxt s' := rfl

/-- Equation of the fuelled driver at the END node. -/
theorem AgentWorkflow.runAux_end (cfgs : WorkflowConfigs) (o : Oracle)
    (fuel : Nat) (s : AgentState) :
    AgentWorkflow.runAux cfgs o fuel none s = .ok (none, s) := by
  cases fuel <;> rfl

/-- One node execution plus edge traversal of the fuelled driver. -/
theorem AgentWorkflow.runAux_step (fuel : Nat) {cfgs : WorkflowConfigs} {o : Oracle}
    {n : Node} {s s' : AgentState} {n' : Option Node}
    (hexec : AgentWorkflow.execNode cfgs o n s = .ok s')
    (hsucc : AgentWorkflow.succNode n s' = .ok n') :
    AgentWorkflow.runAux cfgs o (fuel + 1) (some n) s =
      AgentWorkflow.runAux cfgs o fuel n' s' := by
  rw [AgentWorkflow.runAux_succ]
  simp only [hexec, hsucc]

/-- C1 as amended: for every initial state built from a NON-EMPTY message
list, every configuration, and every Completion/tool-loop oracle — in
particular when every Completion call returns "CLARIFICATION" — one graph
invocation terminates at the END node within at most 3 node executions
(fuel 3 suffices: orchestrator, then either clarification, or research
followed by synthesis) with `next_agent = "END"`; no edge of the compiled
graph re-enters the orchestrator node; and once
`clarification_count >= max_clarifications`, the orchestrator routes to
research for every oracle.  (An initial state built from an empty message
list instead makes the orchestrator raise `IndexError`; see the
counterexample.) -/
theorem AgentWorkflow.invoke_terminates_spec (cfgs : WorkflowConfigs)
    (o : Oracle) (msgs : List Msg) (session_id : String) (h : msgs ≠ []) :
    (∃ s', AgentWorkflow.runAux cfgs o 3 (some .orchestrator)
        (create_initial_state msgs session_id) = .ok (none, s') ∧
        s'.next_agent = "END") ∧
    (∀ (n : Node) (s : AgentState) (m : Node),
        AgentWorkflow.succNode n s = .ok (some m) → m ≠ .orchestrator) ∧
    (∀ (d : Option String) (s : AgentState),
        cfgs.orchestrator.max_clarifications ≤ s.clarification_count →
        ∃ s', MasterOrchestrator.execute cfgs.orchestrator d s = .ok s' ∧
          s'.next_agent = "research") := by
  refine ⟨?_, ?_, ?_⟩
  · obtain ⟨s1, he1, hroute, hmsgs⟩ :=
      MasterOrchestrator.orchestrator_ok_of_ne_nil cfgs.orchestrator
        o.orchestratorDecision (create_initial_state msgs session_id) h
    rcases hroute with hc | hr
    · -- clarification branch: 2 node executions
      obtain ⟨s2, he2, hend⟩ :=
        ClarificationAgent.clarification_ok_of_ne_nil cfgs.clarification
          o.clarificationText s1 (by rw [hmsgs]; exact h)
      refine ⟨s2, ?_, hend⟩
      have he1x : AgentWorkflow.execNode cfgs o .orchestrator
          (create_initial_state msgs session_id) = .ok s1 := he1
      have he2x : AgentWorkflow.execNode cfgs o .clarification s1 = .ok s2 := he2
      have step1 := AgentWorkflow.runAux_step 2 he1x
        (show AgentWorkflow.succNode .orchestrator s1 = .ok (some .clarification) by
          simp [AgentWorkflow.succNode, hc])
      have step2 := AgentWorkflow.runAux_step 1 he2x
        (show AgentWorkflow.succNode .clarification s2 = .ok none from rfl)
      rw [step1, step2, AgentWorkflow.runAux_end]
    · -- research branch: 3 node executions
      refine ⟨AnswerSynthesisAgent.execute cfgs.synthesis o.synthesisText
        (ResearchSupervisor.execute cfgs.research o.researchResult
          o.researchErrText s1), ?_, AnswerSynthesisAgent.next_agent_end _ _ _⟩
      have he1x : AgentWorkflow.execNode cfgs o .orchestrator
          (create_initial_state msgs session_id) = .ok s1 := he1
      have step1 := AgentWorkflow.runAux_step 2 he1x
        (show AgentWorkflow.succNode .orchestrator s1 = .ok (some .research) by
          simp [AgentWorkflow.succNode, hr])
      have step2 := AgentWorkflow.runAux_step 1
        (show AgentWorkflow.execNode cfgs o .research s1 =
          .ok (ResearchSupervisor.execute cfgs.research o.researchResult
            o.researchErrText s1) from rfl)
        (show AgentWorkflow.succNode .research _ = .ok (some .synthesis) from rfl)
      have step3 := AgentWorkflow.runAux_step 0
        (show AgentWorkflow.execNode cfgs o .synthesis
            (ResearchSupervisor.execute cfgs.research o.researchResult
              o.researchErrText s1) =
          .ok (AnswerSynthesisAgent.execute cfgs.synthesis o.synthesisText
            (ResearchSupervisor.execute cfgs.research o.researchResult
              o.researchErrText s1)) from rfl)
        (show AgentWorkflow.succNode .synthesis _ = .ok none from rfl)
      rw [step1, step2, step3, AgentWorkflow.runAux_end]
  · intro n s m hsucc
    cases n with
    | orchestrator =>
      simp only [AgentWorkflow.succNode] at hsucc
      split at hsucc
      · injection hsucc with hm
        injection hm with hm
        subst hm
        decide
      · split at hsucc
        · injection hsucc with hm
          injection hm with hm
          subst hm
          decide
        · exact absurd hsucc (by simp)
    | clarification =>
      simp only [AgentWorkflow.succNode] at hsucc
      injection hsucc with hm
      exact absurd hm (by simp)
    | research =>
      simp only [AgentWorkflow.succNode] at hsucc
      injection hsucc with hm
      injection hm with hm
      subst hm
      decide
    | synthesis =>
      simp only [AgentWorkflow.succNode] at hsucc
      injection hsucc with hm
      exact absurd hm (by simp)
  · intro d s hcap
    have hok : MasterOrchestrator.execute cfgs.orchestrator d s =
        .ok { s with next_agent := "research"
                     clarification_needed := false
                     clarification_count := 0
                     iteration := s.iteration + 1 } := by
      simp only [MasterOrchestrator.execute]
      rw [if_pos hcap]
    exact ⟨_, hok, rfl⟩

/-- Oracle in which every Completion call answers "CLARIFICATION" and the
research tool loop returns a single final message. -/
def clarificationOracle : Oracle :=
  { orchestratorDecision := some "CLARIFICATION"
    clarificationText := some "CLARIFICATION"
    researchResult := some [{ role := .ai, content := "CLARIFICATION" }]
    synthesisText := some "CLARIFICATION" }

/-- Witness for C1 at a concrete input: a one-message initial state under
the all-"CLARIFICATION" oracle reaches END within 3 node executions. -/
theorem AgentWorkflow.invoke_terminates_spec_witness :
    ∃ s', AgentWorkflow.runAux {} clarificationOracle 3 (some .orchestrator)
        (create_initial_state [{ role := .human, content := "Tell me more about it" }] "s1") =
      .ok (none, s') ∧ s'.next_agent = "END" :=
  (AgentWorkflow.invoke_terminates_spec {} clarificationOracle
    [{ role := .human, content := "Tell me more about it" }] "s1" (by decide)).1

/-- Oracle in which the orchestrator's Completion call answers "RESEARCH"
(never even consulted on the counterexample run). -/
def researchOracle : Oracle :=
  { orchestratorDecision := some "RESEARCH"
    clarificationText := some "q"
    researchResult := some [{ role := .ai, content := "a" }]
    synthesisText := some "a" }

/-- Counterexample to C1 as stated: `create_initial_state` accepts an
empty message list, and on that initial state the orchestrator's layer 3
evaluates `messages[-1]` and raises `IndexError` (modelled `.error ()`),
so `invoke` raises instead of driving the workflow to a terminal node —
for this concrete oracle, and indeed before any Completion call is
consulted. -/
theorem AgentWorkflow.invoke_empty_messages_cex :
    AgentWorkflow.runAux {} researchOracle 3 (some .orchestrator)
      (create_initial_state [] "s1") = .error () := rfl

/-- Witness for C9 at concrete inputs: with the default minimum 0.5, a
document scoring 0.7 survives the filter (so scores strictly above the
minimum pass), and a list whose only document scores 0.3 yields the
non-empty "no relevant documents" message. -/
theorem PDFRetrievalTool.run_filter_spec_witness :
    ((1 : ℚ)/2 <
      ({ text := "t1", source := "s1", page := 3, score := 7/10 } :
        PDFRetrievalTool.RetrievedDoc).score) ∧
    (PDFRetrievalTool.run (1/2)
        [{ text := "t2", source := "s2", page := 4, score := 3/10 }] =
      PDFRetrievalTool.noRelevantMessage (1/2) ∧
     PDFRetrievalTool.run (1/2)
        [{ text := "t2", source := "s2", page := 4, score := 3/10 }] ≠ "") :=
  ⟨(PDFRetrievalTool.run_filter_spec (1/2)
      [{ text := "t1", source := "s1", page := 3, score := 7/10 },
       { text := "t2", source := "s2", page := 4, score := 3/10 }]).1
      _ (by norm_num [PDFRetrievalTool.filteredDocs, List.filter]),
   (PDFRetrievalTool.run_filter_spec (1/2)
      [{ text := "t2", source := "s2", page := 4, score := 3/10 }]).2.2
      (by norm_num [PDFRetrievalTool.filteredDocs, List.filter])⟩
